import Mathlib

/-!
Shallow embedding of the canvas sync engine
(`CanvasSyncProvider` in right-click-menu.tsx): the bidirectional
synchronization between a local fabric.js scene and a replicated Yjs
document.  Pure functions model the projector (`updateYjsObject`,
`deleteYjsObject`, `updateYjsCanvasSettings`), the appliers
(`objectObserver`, `canvasSettingsObserver`, `applyObjectUpdate`), the
bootstrap (`loadInitialState`) and the context accessor
(`useCanvasSync`).  Mutable refs of the source become fields of an
explicit `SyncState`; the Yjs maps become association lists; the
deferred (setTimeout 0) clearing of guard state is a separate `settleWrite`
step, so every function below returns the state as it stands when the
source function returns, before deferred clearing runs.
-/

/-- Association-list lookup, modelling `Map.get` / `Y.Map.get`. -/
def assocGet {α : Type} (m : List (String × α)) (k : String) : Option α :=
  match m with
  | [] => none
  | (k1, v1) :: rest => if k1 = k then some v1 else assocGet rest k

/-- Association-list insertion/replacement, modelling `Map.set` / `Y.Map.set`
(replace the existing binding, else append at the end, as JS maps do). -/
def assocSet {α : Type} (m : List (String × α)) (k : String) (v : α) :
    List (String × α) :=
  match m with
  | [] => [(k, v)]
  | (k1, v1) :: rest =>
      if k1 = k then (k, v) :: rest else (k1, v1) :: assocSet rest k v

/-- Association-list removal, modelling `Map.delete` / `Y.Map.delete`. -/
def assocDelete {α : Type} (m : List (String × α)) (k : String) :
    List (String × α) :=
  m.filter (fun p => p.1 ≠ k)

/-- Canvas dimensions value, `{width, height}`. -/
structure Dimensions where
  width : Int
  height : Int
deriving DecidableEq, Repr

/-- A gradient definition as produced by `fabric.Gradient.toObject()`:
the stop list (offset, color) and coordinate data. -/
structure GradientDef where
  stops : List (Int × String)
  coords : List (String × Int)
deriving DecidableEq, Repr

/-- A pattern payload as produced by `fabric.Pattern.toObject(["color","name"])`:
only the symbolic texture name and the tint color, never pixel data. -/
structure PatternDef where
  name : String
  color : String
deriving DecidableEq, Repr

/-- The fill of a serialized record: a flat color string, or the tagged
unions written by `updateYjsObject` (`{type:"gradient",...}` /
`{type:"pattern",...}`), or no fill. -/
inductive RecFill
  | flat (c : String)
  | gradient (g : GradientDef)
  | pattern (p : PatternDef)
  | noFill
deriving DecidableEq, Repr

/-- The fill of a live scene object: a flat color, a `fabric.Gradient`,
a `fabric.Pattern` (carrying its resolved source image), no fill, or a
raw encoded record-fill restored verbatim by the JSON loader (the
bootstrap path hands serialized tagged unions straight to
`canvas.loadFromJSON`, which does not know the custom encoding). -/
inductive Fill
  | flat (c : String)
  | gradient (g : GradientDef)
  | pattern (p : PatternDef) (sourceImg : Option String)
  | noFill
  | encoded (rf : RecFill)
deriving DecidableEq, Repr

/-- fabric's default fill for a freshly constructed object. -/
def defaultFill : Fill := Fill.flat "rgb(0,0,0)"

/-- A live fabric scene object: optional custom `id`, type discriminator,
geometric properties and a fill. -/
structure FabricObject where
  id : Option String
  type : String
  left : Int
  top : Int
  scaleX : Int
  scaleY : Int
  angle : Int
  path : List Int
  fill : Fill
deriving DecidableEq, Repr

/-- The geometric/style-independent projection of an object, used to state
round-trip properties. -/
def FabricObject.geom (o : FabricObject) :
    String × Int × Int × Int × Int × Int × List Int :=
  (o.type, o.left, o.top, o.scaleX, o.scaleY, o.angle, o.path)

/-- The plain record stored in the replicated objects map: `obj.toJSON()`
with `id` forced and the fill replaced by its tagged encoding. -/
structure SerializedRecord where
  id : String
  type : String
  left : Int
  top : Int
  scaleX : Int
  scaleY : Int
  angle : Int
  path : List Int
  fill : RecFill
deriving DecidableEq, Repr

/-- The serialization of a scene fill performed inside `updateYjsObject`:
`fabric.Gradient` becomes `{type:"gradient", gradient: fill.toObject()}`,
`fabric.Pattern` becomes `{type:"pattern", pattern: toObject(["color","name"])}`
(the source image is dropped), anything else is serialized as-is by
`obj.toJSON()`. -/
def recFillOf : Fill → RecFill
  | Fill.flat c => RecFill.flat c
  | Fill.gradient g => RecFill.gradient g
  | Fill.pattern p _ => RecFill.pattern p
  | Fill.noFill => RecFill.noFill
  | Fill.encoded rf => rf

/-- `jsonData` as built in `updateYjsObject`: `obj.toJSON()`, then
`jsonData.id = objId`, then the fill special-casing. -/
def toRecord (objId : String) (obj : FabricObject) : SerializedRecord :=
  { id := objId
    type := obj.type
    left := obj.left
    top := obj.top
    scaleX := obj.scaleX
    scaleY := obj.scaleY
    angle := obj.angle
    path := obj.path
    fill := recFillOf obj.fill }

/-- The replicated settings map (`fabricCanvas` Y.Map) with its two keys. -/
structure CanvasMap where
  dimensions : Option Dimensions
  preset : Option String
deriving DecidableEq, Repr

/-- The whole per-session sync state: the two Yjs maps (`none` while the
refs are still null), the scene's object list, the id-to-object registry
(`fabricObjectsRef`), the local canvas-context settings, the previous
settings refs, the three guard flags and the in-flight id set
(`processingQueue`). -/
structure SyncState where
  yDocInit : Bool
  objectsMap : Option (List (String × SerializedRecord))
  canvasMap : Option CanvasMap
  sceneObjects : List FabricObject
  fabricObjects : List (String × FabricObject)
  localDimensions : Dimensions
  localPreset : String
  prevDimensions : Dimensions
  prevPreset : String
  isLocalChange : Bool
  isLoadingInitialState : Bool
  isYjsSettingsUpdate : Bool
  initialized : Bool
  processingQueue : List String
deriving DecidableEq, Repr

/-- The origin tag attached to every transaction produced by this replica's
projector. -/
def LOCAL_ORIGIN : String := "local_canvas_sync"

/-- `updateYjsObject`: guard on null refs, assign a fresh uuid (`freshId`)
when the object has none, skip when the id is in-flight, otherwise mark
in-flight, raise the local-change flag, register the object, serialize and
write the record inside a `LOCAL_ORIGIN` transaction.  Returns the state at
function exit (deferred clearing is `settleWrite`) together with the
possibly id-assigned object. -/
def updateYjsObject (freshId : String) (obj : FabricObject) (s : SyncState) :
    SyncState × FabricObject :=
  match s.objectsMap, s.yDocInit with
  | some omap, true =>
      let obj2 := match obj.id with
        | none => { obj with id := some freshId }
        | some _ => obj
      let objId := obj2.id.getD freshId
      if objId ∈ s.processingQueue then (s, obj2)
      else
        ({ s with
            processingQueue := objId :: s.processingQueue
            isLocalChange := true
            fabricObjects := assocSet s.fabricObjects objId obj2
            objectsMap := some (assocSet omap objId (toRecord objId obj2)) },
          obj2)
  | _, _ => (s, obj)

/-- `deleteYjsObject`: guard on missing id or null refs, skip when the id is
in-flight, otherwise mark in-flight, raise the local-change flag, drop the
registry entry and delete the record inside a `LOCAL_ORIGIN` transaction. -/
def deleteYjsObject (obj : FabricObject) (s : SyncState) : SyncState :=
  match obj.id, s.objectsMap, s.yDocInit with
  | some objId, some omap, true =>
      if objId ∈ s.processingQueue then s
      else
        { s with
            processingQueue := objId :: s.processingQueue
            isLocalChange := true
            fabricObjects := assocDelete s.fabricObjects objId
            objectsMap := some (assocDelete omap objId) }
  | _, _, _ => s

/-- The deferred `setTimeout(0)` step in the `finally` blocks of the
projector and applier: clear the local-change flag and release the id from
the in-flight set. -/
def settleWrite (objId : String) (s : SyncState) : SyncState :=
  { s with
      isLocalChange := false
      processingQueue := s.processingQueue.filter (fun x => x ≠ objId) }

/-- A partial settings value, `Partial<CanvasSettings>`. -/
structure CanvasSettingsPartial where
  dimensions : Option Dimensions
  preset : Option String
deriving DecidableEq, Repr

/-- JS truthiness of an optional string (`undefined` and the empty string
are falsy). -/
def strTruthy : Option String → Bool
  | some p => p ≠ ""
  | none => false

/-- `updateYjsCanvasSettings`: guard on null refs; compare each supplied
key against the previous-value refs (structural equality via
`JSON.stringify` for dimensions), updating the refs for changed keys; if
nothing changed, return without writing; otherwise raise the local-change
flag and, inside one `LOCAL_ORIGIN` transaction, write every supplied
(truthy) key into the settings map.  The second component is the list of
keys actually written by the transaction (each `Y.Map.set` call). -/
def updateYjsCanvasSettings (settings : CanvasSettingsPartial)
    (s : SyncState) : SyncState × List String :=
  match s.canvasMap, s.yDocInit with
  | some cmap, true =>
      let dimCheck : Bool × Dimensions :=
        match settings.dimensions with
        | some d => if d ≠ s.prevDimensions then (true, d)
                    else (false, s.prevDimensions)
        | none => (false, s.prevDimensions)
      let preCheck : Bool × String :=
        match settings.preset with
        | some p => if p ≠ "" ∧ p ≠ s.prevPreset then (true, p)
                    else (false, s.prevPreset)
        | none => (false, s.prevPreset)
      let s2 := { s with
        prevDimensions := dimCheck.2
        prevPreset := preCheck.2 }
      if dimCheck.1 = false ∧ preCheck.1 = false then (s2, [])
      else
        let s3 := { s2 with isLocalChange := true }
        let step1 : CanvasMap × List String :=
          match settings.dimensions with
          | some d => ({ cmap with dimensions := some d }, ["dimensions"])
          | none => (cmap, [])
        let step2 : CanvasMap × List String :=
          match settings.preset with
          | some p =>
              if p ≠ "" then
                ({ step1.1 with preset := some p }, step1.2 ++ ["preset"])
              else step1
          | none => step1
        ({ s3 with canvasMap := some step2.1 }, step2.2)
  | _, _ => (s, [])

/-- A change entry delivered by a `Y.YMapEvent` for one key. -/
inductive ChangeAction
  | add
  | update
  | delete
deriving DecidableEq, Repr

/-- The patch built by the object observer before calling
`applyObjectUpdate`: the record's plain properties with the fill already
converted to its live form — or removed entirely (`fill := none`) in the
pattern case, where the code does `delete objData.fill`. -/
structure Patch where
  id : String
  type : String
  left : Int
  top : Int
  scaleX : Int
  scaleY : Int
  angle : Int
  path : List Int
  fill : Option Fill
deriving DecidableEq, Repr

/-- The fill handling of the object observer (lines before
`applyObjectUpdate`): a gradient record-fill is rebuilt as a live
`fabric.Gradient` inside the patch; a pattern record-fill is removed from
the patch and, when the texture fetch succeeds (`fetchOk`), a live
`fabric.Pattern` carrying the fetched image is produced as the separate
deferred fill; any other fill is kept as-is.  Returns
(patch, deferred pattern fill). -/
def decodeRecord (fetchOk : Bool) (r : SerializedRecord) :
    Patch × Option Fill :=
  let base : Patch :=
    { id := r.id, type := r.type, left := r.left, top := r.top
      scaleX := r.scaleX, scaleY := r.scaleY, angle := r.angle
      path := r.path, fill := none }
  match r.fill with
  | RecFill.flat c => ({ base with fill := some (Fill.flat c) }, none)
  | RecFill.gradient g => ({ base with fill := some (Fill.gradient g) }, none)
  | RecFill.pattern p =>
      (base,
        if fetchOk then
          some (Fill.pattern p (some ("/patterns/" ++ p.name ++ ".svg")))
        else none)
  | RecFill.noFill => ({ base with fill := some Fill.noFill }, none)

/-- `existingObj.set(objData)`: every property present in the patch is set
on the object; a property absent from the patch (the deleted fill key)
keeps its current value. -/
def setPatch (obj : FabricObject) (p : Patch) : FabricObject :=
  { id := some p.id
    type := p.type
    left := p.left
    top := p.top
    scaleX := p.scaleX
    scaleY := p.scaleY
    angle := p.angle
    path := p.path
    fill := p.fill.getD obj.fill }

/-- `fabric.util.enlivenObjects([objData])`: construct a fresh object from
the patch; an absent fill yields fabric's default fill. -/
def enlivenPatch (p : Patch) : FabricObject :=
  { id := some p.id
    type := p.type
    left := p.left
    top := p.top
    scaleX := p.scaleX
    scaleY := p.scaleY
    angle := p.angle
    path := p.path
    fill := p.fill.getD defaultFill }

/-- `applyObjectUpdate(id, objData, fill)`: if an object with this id is
registered, patch it in place (`set`, `setCoords`, `renderAll`) — note the
deferred `fill` argument is not used on this branch; otherwise materialize
a new object from the patch, force its id to the map key, apply the
deferred pattern fill when present, add it to the scene and register it. -/
def applyObjectUpdate (id : String) (p : Patch) (fill : Option Fill)
    (s : SyncState) : SyncState :=
  match assocGet s.fabricObjects id with
  | some existingObj =>
      let updated := setPatch existingObj p
      { s with
          fabricObjects := assocSet s.fabricObjects id updated
          sceneObjects :=
            s.sceneObjects.map (fun o => if o.id = some id then updated else o) }
  | none =>
      let fabricObj := { enlivenPatch p with id := some id }
      let fabricObj2 := match fill with
        | some f => { fabricObj with fill := f }
        | none => fabricObj
      { s with
          sceneObjects := s.sceneObjects ++ [fabricObj2]
          fabricObjects := assocSet s.fabricObjects id fabricObj2 }

/-- Processing of one changed key inside the object observer's
`event.changes.keys.forEach` callback: skip in-flight ids; otherwise mark
in-flight and raise the local-change flag; on add/update fetch the record
(skipping silently when it is gone), decode its fill and apply it; the
delete branch of the source is an empty stub and performs no scene
mutation.  Deferred clearing is `settleWrite`. -/
def processChange (fetchOk : Bool) (s : SyncState)
    (c : String × ChangeAction) : SyncState :=
  if c.1 ∈ s.processingQueue then s
  else
    let s2 := { s with
      processingQueue := c.1 :: s.processingQueue
      isLocalChange := true }
    match c.2 with
    | ChangeAction.delete => s2
    | _ =>
        match s2.objectsMap.bind (fun m => assocGet m c.1) with
        | none => s2
        | some r =>
            let pd := decodeRecord fetchOk r
            applyObjectUpdate c.1 pd.1 pd.2 s2

/-- `objectObserver`: ignore the whole event while the initial state is
loading, when the transaction's origin is `LOCAL_ORIGIN`, or when the
local-change flag is set; otherwise process each changed key in order. -/
def objectObserver (fetchOk : Bool) (origin : Option String)
    (changes : List (String × ChangeAction)) (s : SyncState) : SyncState :=
  if s.isLoadingInitialState = true ∨ origin = some LOCAL_ORIGIN ∨
      s.isLocalChange = true then s
  else changes.foldl (processChange fetchOk) s

/-- `canvasSettingsObserver`: ignore the event when the origin is
`LOCAL_ORIGIN` or the local-change flag is set; otherwise raise the
remote-settings flag and, for each of the keys present in the change set,
read the new value from the settings map and apply it locally when it is
truthy and differs from the current local value. -/
def canvasSettingsObserver (origin : Option String)
    (changedKeys : List String) (s : SyncState) : SyncState :=
  if origin = some LOCAL_ORIGIN ∨ s.isLocalChange = true then s
  else
    let s1 := { s with isYjsSettingsUpdate := true }
    let s2 :=
      if "dimensions" ∈ changedKeys then
        match s1.canvasMap.bind (fun m => m.dimensions) with
        | some nd => if nd ≠ s1.localDimensions then
                       { s1 with localDimensions := nd } else s1
        | none => s1
      else s1
    if "preset" ∈ changedKeys then
      match s2.canvasMap.bind (fun m => m.preset) with
      | some np => if np ≠ "" ∧ np ≠ s2.localPreset then
                     { s2 with localPreset := np } else s2
      | none => s2
    else s2

/-- Materialization of one stored record by the bootstrap's
`canvas.loadFromJSON` pass: the plain properties are restored; a flat
color fill is restored as a flat color, while the tagged gradient/pattern
unions are restored verbatim (this path never runs the observer's fill
decoding). -/
def materializeInitRecord (r : SerializedRecord) : FabricObject :=
  { id := some r.id
    type := r.type
    left := r.left
    top := r.top
    scaleX := r.scaleX
    scaleY := r.scaleY
    angle := r.angle
    path := r.path
    fill := match r.fill with
      | RecFill.flat c => Fill.flat c
      | rf => Fill.encoded rf }

/-- The settings phase of the bootstrap: when the replicated settings map
holds truthy values, apply them locally, update the previous-value refs
and raise the remote-settings flag; otherwise keep the local defaults. -/
def applyInitialSettings (cmap : CanvasMap) (s : SyncState) : SyncState :=
  if cmap.dimensions.isSome = true ∨ strTruthy cmap.preset = true then
    let sa := { s with isYjsSettingsUpdate := true }
    let sb := match cmap.dimensions with
      | some d => { sa with localDimensions := d, prevDimensions := d }
      | none => sa
    match cmap.preset with
    | some p => if p ≠ "" then
                  { sb with localPreset := p, prevPreset := p }
                else sb
    | none => sb
  else s

/-- `loadInitialState`: apply replicated settings when present; then
unconditionally clear the scene and the registry and rebuild both from
the values of the replicated objects map; finally drop the loading flag
and mark the session initialized.  The replicated maps themselves are
never written. -/
def loadInitialState (s : SyncState) : SyncState :=
  match s.objectsMap, s.canvasMap with
  | some omap, some cmap =>
      let s1 := applyInitialSettings cmap s
      let objs := omap.map (fun kv => materializeInitRecord kv.2)
      { s1 with
          sceneObjects := objs
          fabricObjects :=
            objs.foldl (fun m o =>
              match o.id with
              | some i => assocSet m i o
              | none => m) []
          isLoadingInitialState := false
          initialized := true }
  | _, _ => s

/-- The value stored in the React context by the provider; `none` models
rendering outside a `CanvasSyncProvider`. -/
structure CanvasSyncContextType where
  yDocAttached : Bool
deriving DecidableEq, Repr

/-- `useCanvasSync`: return the context value, throwing (modelled as
`Except.error` with the thrown message) when used outside the provider. -/
def useCanvasSync (ctx : Option CanvasSyncContextType) :
    Except String CanvasSyncContextType :=
  match ctx with
  | none => Except.error "useCanvasSync must be used within a CanvasSyncProvider"
  | some c => Except.ok c

/-! Concrete fixtures used to evaluate the model. -/

/-- 100×100 dimensions. -/
def dimsA : Dimensions := { width := 100, height := 100 }

/-- 800×600 dimensions. -/
def dimsB : Dimensions := { width := 800, height := 600 }

/-- A fully initialized, idle session with empty maps and empty scene. -/
def baseState : SyncState :=
  { yDocInit := true
    objectsMap := some []
    canvasMap := some { dimensions := none, preset := none }
    sceneObjects := []
    fabricObjects := []
    localDimensions := dimsA
    localPreset := "A4"
    prevDimensions := dimsA
    prevPreset := "A4"
    isLocalChange := false
    isLoadingInitialState := false
    isYjsSettingsUpdate := false
    initialized := true
    processingQueue := [] }

/-- A session whose Yjs refs are still null (before initialization). -/
def uninitState : SyncState :=
  { baseState with
      yDocInit := false
      objectsMap := none
      canvasMap := none
      initialized := false }

/-- A red rectangle with id "a". -/
def objA : FabricObject :=
  { id := some "a", type := "rect", left := 10, top := 20, scaleX := 1
    scaleY := 1, angle := 0, path := [], fill := Fill.flat "#ff0000" }

/-- A session whose scene and registry contain `objA`. -/
def stateWithA : SyncState :=
  { baseState with sceneObjects := [objA], fabricObjects := [("a", objA)] }

/-- A session in which id "a" is in-flight. -/
def inflightState : SyncState :=
  { stateWithA with processingQueue := ["a"] }

/-- A settings call carrying new dimensions together with a preset equal to
the last-known one. -/
def dirtySettings : CanvasSettingsPartial :=
  { dimensions := some dimsB, preset := some "A4" }

/-- A settings call in which neither supplied key differs from the
last-known values of `baseState`. -/
def cleanSettings : CanvasSettingsPartial :=
  { dimensions := some dimsA, preset := some "A4" }

/-- Whether the supplied dimensions differ structurally from the
previous-value ref (the per-key dirty check of the source). -/
def dimsDirty (settings : CanvasSettingsPartial) (s : SyncState) : Bool :=
  match settings.dimensions with
  | some d => decide (d ≠ s.prevDimensions)
  | none => false

/-- Whether the supplied preset is truthy and differs from the
previous-value ref (the per-key dirty check of the source). -/
def presetDirty (settings : CanvasSettingsPartial) (s : SyncState) : Bool :=
  match settings.preset with
  | some p => decide (p ≠ "" ∧ p ≠ s.prevPreset)
  | none => false

/-- The keys a non-skipped settings transaction writes: every supplied
(truthy) key. -/
def suppliedKeys (settings : CanvasSettingsPartial) : List String :=
  (match settings.dimensions with
   | some _ => ["dimensions"]
   | none => []) ++
  (match settings.preset with
   | some p => if p ≠ "" then ["preset"] else []
   | none => [])

/-- Whether a record fill is the tagged pattern union. -/
def isPatternRec : RecFill → Bool
  | RecFill.pattern _ => true
  | _ => false

/-- The hatch pattern payload. -/
def patDef : PatternDef := { name := "hatch", color := "#00ff00" }

/-- An object with id "p1" whose fill is a live hatch pattern. -/
def objPat : FabricObject :=
  { id := some "p1", type := "rect", left := 5, top := 6, scaleX := 1
    scaleY := 1, angle := 0, path := [], fill := Fill.pattern patDef (some "blob:old") }

/-- A pre-existing local object with id "p1" and a flat fill. -/
def oldObj : FabricObject :=
  { id := some "p1", type := "rect", left := 1, top := 1, scaleX := 1
    scaleY := 1, angle := 0, path := [], fill := Fill.flat "#123456" }

/-- A session whose scene and registry already contain `oldObj`. -/
def statePat : SyncState :=
  { baseState with sceneObjects := [oldObj], fabricObjects := [("p1", oldObj)] }

/-- The record round trip: serialize an object exactly as the projector
does (`toRecord`), then decode and apply it exactly as the object observer
does for an add/update of this id (`decodeRecord` + `applyObjectUpdate`). -/
def roundTripPipeline (fetchOk : Bool) (id : String) (obj : FabricObject)
    (s : SyncState) : SyncState :=
  let pd := decodeRecord fetchOk (toRecord id obj)
  applyObjectUpdate id pd.1 pd.2 s

/-- A plain patch for id "a". -/
def patchA : Patch :=
  { id := "a", type := "rect", left := 0, top := 0, scaleX := 1
    scaleY := 1, angle := 0, path := [], fill := none }

/-- Setting a key and reading it back yields the set value. -/
theorem assocGet_assocSet {α : Type} (m : List (String × α)) (k : String)
    (v : α) : assocGet (assocSet m k v) k = some v := by
  induction m with
  | nil => simp [assocGet, assocSet]
  | cons p rest ih =>
      obtain ⟨k1, v1⟩ := p
      by_cases h : k1 = k
      · simp [assocGet, assocSet, h]
      · simp [assocGet, assocSet, h, ih]

/-- Claim C1: for every object-change transaction tagged `LOCAL_ORIGIN` by
this replica's own projector, the objects-map observer returns the state
untouched: whenever the transaction origin equals `LOCAL_ORIGIN` or the
local-change flag is set, no scene object (and no other sync state) is
mutated. -/
theorem C1_no_echo (fetchOk : Bool) (origin : Option String)
    (changes : List (String × ChangeAction)) (s : SyncState)
    (h : origin = some LOCAL_ORIGIN ∨ s.isLocalChange = true) :
    objectObserver fetchOk origin changes s = s := by
  unfold objectObserver
  rcases h with h | h
  · rw [if_pos (Or.inr (Or.inl h))]
  · rw [if_pos (Or.inr (Or.inr h))]

/-- Witness for C1 at a concrete echo transaction. -/
theorem C1_no_echo_witness :
    objectObserver true (some LOCAL_ORIGIN) [("a", ChangeAction.update)]
      stateWithA = stateWithA :=
  C1_no_echo true (some LOCAL_ORIGIN) [("a", ChangeAction.update)]
    stateWithA (Or.inl rfl)

/-- Claim C3, evaluated at the failing input: a remote transaction
(origin not `LOCAL_ORIGIN`, no local flags set) deletes key "a" while the
scene contains the object with id "a"; the observer's delete branch is an
empty stub, so the object stays in the scene and in the registry instead
of being removed. -/
theorem C3_remote_delete_is_noop :
    (objectObserver true none [("a", ChangeAction.delete)] stateWithA).sceneObjects
        = [objA] ∧
    (objectObserver true none [("a", ChangeAction.delete)] stateWithA).fabricObjects
        = [("a", objA)] := by
  constructor <;> rfl

/-- Claim C6: while an object id is in the in-flight set, a further
`updateYjsObject` or `deleteYjsObject` call for that id returns with the
whole sync state (replicated table, registry, flags, queue) unchanged and
the object untouched. -/
theorem C6_inflight_noop (freshId : String) (obj : FabricObject)
    (s : SyncState) (i : String) (hid : obj.id = some i)
    (hq : i ∈ s.processingQueue) :
    updateYjsObject freshId obj s = (s, obj) ∧ deleteYjsObject obj s = s := by
  constructor
  · cases hm : s.objectsMap with
    | none => simp [updateYjsObject, hm]
    | some omap =>
        cases hd : s.yDocInit with
        | false => simp [updateYjsObject, hm, hd]
        | true => simp [updateYjsObject, hm, hd, hid, hq]
  · cases hm : s.objectsMap with
    | none => simp [deleteYjsObject, hid, hm]
    | some omap =>
        cases hd : s.yDocInit with
        | false => simp [deleteYjsObject, hid, hm, hd]
        | true => simp [deleteYjsObject, hid, hm, hd, hq]

/-- Witness for C6: id "a" is in-flight, both calls are no-ops. -/
theorem C6_inflight_noop_witness :
    updateYjsObject "fresh-1" objA inflightState = (inflightState, objA) ∧
    deleteYjsObject objA inflightState = inflightState :=
  C6_inflight_noop "fresh-1" objA inflightState "a" rfl (by decide)

/-- Claim C10: `deleteYjsObject` on an object without an id, or before the
doc/objects map are initialized, returns the state unchanged (table,
registry, in-flight set and local-change flag untouched) and, being a
total function, without throwing. -/
theorem C10_delete_guard (obj : FabricObject) (s : SyncState)
    (h : obj.id = none ∨ s.objectsMap = none ∨ s.yDocInit = false) :
    deleteYjsObject obj s = s := by
  rcases h with h | h | h <;>
    cases hid : obj.id <;> cases hm : s.objectsMap <;>
      cases hd : s.yDocInit <;> simp_all [deleteYjsObject]

/-- Witness for C10: an id-less object on an initialized session, and an
object with an id on an uninitialized session. -/
theorem C10_delete_guard_witness :
    deleteYjsObject { objA with id := none } baseState = baseState ∧
    deleteYjsObject objA uninitState = uninitState :=
  ⟨C10_delete_guard { objA with id := none } baseState (Or.inl rfl),
   C10_delete_guard objA uninitState (Or.inr (Or.inl rfl))⟩

/-- Claim C9 counterexample: invoking the projector before the session is
initialized (objects map ref still null) does not fail fast: the call
returns normally with every piece of sync state unchanged and the object
untouched — it proceeds silently instead of surfacing an error. -/
theorem C9_counterexample :
    updateYjsObject "u-1" objA uninitState = (uninitState, objA) := rfl

/-- Claim C9 as amended: accessing the sync context outside its provider
throws immediately, while invoking a sync operation before initialization
is a silent no-op that returns leaving all sync state unchanged. -/
theorem C9_amended (ctx : Option CanvasSyncContextType) (s : SyncState)
    (obj : FabricObject) (freshId : String)
    (hctx : ctx = none) (hs : s.objectsMap = none) :
    useCanvasSync ctx =
      Except.error "useCanvasSync must be used within a CanvasSyncProvider" ∧
    updateYjsObject freshId obj s = (s, obj) ∧
    deleteYjsObject obj s = s := by
  subst hctx
  refine ⟨rfl, ?_, ?_⟩
  · simp [updateYjsObject, hs]
  · cases hid : obj.id <;> simp [deleteYjsObject, hs, hid]

/-- Witness for C9 at a concrete missing context and uninitialized
session. -/
theorem C9_amended_witness :
    useCanvasSync none =
      Except.error "useCanvasSync must be used within a CanvasSyncProvider" ∧
    updateYjsObject "u-2" objA uninitState = (uninitState, objA) ∧
    deleteYjsObject objA uninitState = uninitState :=
  C9_amended none uninitState objA "u-2" rfl rfl

/-- The settings phase of the bootstrap never touches the objects map, the
scene list or the registry. -/
theorem applyInitialSettings_frame (cmap : CanvasMap) (s : SyncState) :
    (applyInitialSettings cmap s).objectsMap = s.objectsMap ∧
    (applyInitialSettings cmap s).sceneObjects = s.sceneObjects ∧
    (applyInitialSettings cmap s).fabricObjects = s.fabricObjects := by
  unfold applyInitialSettings
  split
  · cases hd : cmap.dimensions <;> cases hp : cmap.preset <;>
      simp [hd, hp] <;> split <;> simp
  · simp

/-- Claim C8: a remote settings transaction whose change set contains only
the `dimensions` key leaves the local preset untouched, and one containing
only the `preset` key leaves the local dimensions untouched. -/
theorem C8_settings_key_frame (origin : Option String) (s : SyncState)
    (h1 : origin ≠ some LOCAL_ORIGIN) (h2 : s.isLocalChange = false) :
    (canvasSettingsObserver origin ["dimensions"] s).localPreset =
      s.localPreset ∧
    (canvasSettingsObserver origin ["preset"] s).localDimensions =
      s.localDimensions := by
  have hg : ¬(origin = some LOCAL_ORIGIN ∨ s.isLocalChange = true) := by
    simp [h1, h2]
  constructor
  · simp only [canvasSettingsObserver, if_neg hg]
    rw [if_neg (show ¬("preset" ∈ (["dimensions"] : List String)) by decide)]
    rw [if_pos (show "dimensions" ∈ (["dimensions"] : List String) by decide)]
    cases hb : ({ s with isYjsSettingsUpdate := true } :
        SyncState).canvasMap.bind (fun m => m.dimensions) with
    | none => simp [hb]
    | some nd => simp [hb]; split <;> simp
  · simp only [canvasSettingsObserver, if_neg hg]
    rw [if_pos (show "preset" ∈ (["preset"] : List String) by decide)]
    rw [if_neg (show ¬("dimensions" ∈ (["preset"] : List String)) by decide)]
    cases hb : ({ s with isYjsSettingsUpdate := true } :
        SyncState).canvasMap.bind (fun m => m.preset) with
    | none => simp [hb]
    | some np => simp [hb]; split <;> simp

/-- Witness for C8 on a concrete remote transaction. -/
theorem C8_settings_key_frame_witness :
    (canvasSettingsObserver none ["dimensions"] stateWithA).localPreset =
      stateWithA.localPreset ∧
    (canvasSettingsObserver none ["preset"] stateWithA).localDimensions =
      stateWithA.localDimensions :=
  C8_settings_key_frame none stateWithA (by decide) rfl

/-- Claim C4 counterexample: with last-known dimensions 100×100 and preset
"A4", a call supplying new dimensions 800×600 together with the unchanged
preset "A4" writes BOTH keys — the transaction sets the `preset` key even
though its supplied value equals the last-known value, contradicting the
claim that such a key is never written. -/
theorem C4_counterexample :
    (updateYjsCanvasSettings dirtySettings baseState).2 =
      ["dimensions", "preset"] ∧
    dirtySettings.preset = some baseState.prevPreset := by
  constructor <;> rfl

/-- Claim C4 as amended: the dirty check is per call, not per key — when no
supplied key differs from the last-known values, nothing is written and
the settings map is untouched; when any supplied key differs, the
transaction writes every supplied (truthy) key, including keys whose
values are unchanged. -/
theorem C4_dirty_check_amended (settings : CanvasSettingsPartial)
    (s : SyncState) (cmap : CanvasMap) (hm : s.canvasMap = some cmap)
    (hd : s.yDocInit = true) :
    (dimsDirty settings s = false ∧ presetDirty settings s = false →
      (updateYjsCanvasSettings settings s).2 = [] ∧
      (updateYjsCanvasSettings settings s).1.canvasMap = s.canvasMap) ∧
    ((dimsDirty settings s = true ∨ presetDirty settings s = true) →
      (updateYjsCanvasSettings settings s).2 = suppliedKeys settings) := by
  unfold updateYjsCanvasSettings dimsDirty presetDirty suppliedKeys
  rw [hm, hd]
  cases hsd : settings.dimensions with
  | none =>
      cases hsp : settings.preset with
      | none => simp
      | some p =>
          by_cases hp : p ≠ "" ∧ p ≠ s.prevPreset
          · simp [hp, hm]
          · simp [hp, hm]
  | some d =>
      by_cases hdd : d ≠ s.prevDimensions
      · cases hsp : settings.preset with
        | none => simp [hdd, hm]
        | some p =>
            by_cases hp : p ≠ "" ∧ p ≠ s.prevPreset
            · simp [hdd, hp, hm]
            · by_cases hpe : p ≠ ""
              · simp [hdd, hp, hpe, hm]
              · simp [hdd, hp, hpe, hm]
      · cases hsp : settings.preset with
        | none => simp [hdd, hm]
        | some p =>
            by_cases hp : p ≠ "" ∧ p ≠ s.prevPreset
            · simp [hdd, hp, hm]
            · simp [hdd, hp, hm]

/-- Witness for the amended C4: a fully-unchanged call writes nothing; a
call with changed dimensions writes every supplied key. -/
theorem C4_dirty_check_amended_witness :
    ((updateYjsCanvasSettings cleanSettings baseState).2 = [] ∧
      (updateYjsCanvasSettings cleanSettings baseState).1.canvasMap =
        baseState.canvasMap) ∧
    (updateYjsCanvasSettings dirtySettings baseState).2 =
      suppliedKeys dirtySettings :=
  ⟨(C4_dirty_check_amended cleanSettings baseState
      { dimensions := none, preset := none } rfl rfl).1 (by decide),
   (C4_dirty_check_amended dirtySettings baseState
      { dimensions := none, preset := none } rfl rfl).2 (by decide)⟩

/-- Claim C5 counterexample: on first attach with an EMPTY replicated
objects table and a non-empty local scene, the bootstrap clears the scene
— the local state is neither preserved nor used as a seed — and writes
nothing into the table. -/
theorem C5_counterexample :
    (loadInitialState stateWithA).sceneObjects = [] ∧
    (loadInitialState stateWithA).objectsMap = some [] ∧
    stateWithA.sceneObjects = [objA] := ⟨rfl, rfl, rfl⟩

/-- Claim C5 as amended: on first attach the scene and the registry are
always cleared and rebuilt from the replicated objects table, whether or
not the table is empty; the table itself is never written by the
bootstrap, so when it is empty the prior local scene is discarded and no
seed is projected. -/
theorem C5_bootstrap_amended (s : SyncState)
    (omap : List (String × SerializedRecord)) (cmap : CanvasMap)
    (hm : s.objectsMap = some omap) (hc : s.canvasMap = some cmap) :
    (loadInitialState s).sceneObjects =
      omap.map (fun kv => materializeInitRecord kv.2) ∧
    (loadInitialState s).objectsMap = some omap ∧
    (loadInitialState s).fabricObjects =
      (omap.map (fun kv => materializeInitRecord kv.2)).foldl
        (fun m o =>
          match o.id with
          | some i => assocSet m i o
          | none => m) [] := by
  unfold loadInitialState
  rw [hm, hc]
  refine ⟨rfl, ?_, rfl⟩
  have h := (applyInitialSettings_frame cmap s).1
  simp only [h, hm]

/-- Witness for the amended C5 at a one-record table. -/
theorem C5_bootstrap_amended_witness :
    (loadInitialState
        { stateWithA with objectsMap := some [("a", toRecord "a" objA)] }).sceneObjects =
      [("a", toRecord "a" objA)].map (fun kv => materializeInitRecord kv.2) ∧
    (loadInitialState
        { stateWithA with objectsMap := some [("a", toRecord "a" objA)] }).objectsMap =
      some [("a", toRecord "a" objA)] ∧
    (loadInitialState
        { stateWithA with objectsMap := some [("a", toRecord "a" objA)] }).fabricObjects =
      ([("a", toRecord "a" objA)].map (fun kv => materializeInitRecord kv.2)).foldl
        (fun m o =>
          match o.id with
          | some i => assocSet m i o
          | none => m) [] :=
  C5_bootstrap_amended
    { stateWithA with objectsMap := some [("a", toRecord "a" objA)] }
    [("a", toRecord "a" objA)] { dimensions := none, preset := none } rfl rfl

/-- Claim C2 counterexample: round-tripping an object whose fill is the
hatch pattern onto a replica where an object with the same id already
exists patches it in place WITHOUT re-establishing the pattern fill: the
deferred pattern fill argument is unused on the patch branch and the
record's fill key was deleted, so the object keeps its old flat fill. -/
theorem C2_counterexample :
    (assocGet (roundTripPipeline true "p1" objPat statePat).fabricObjects
        "p1").map FabricObject.fill = some (Fill.flat "#123456") ∧
    objPat.fill = Fill.pattern patDef (some "blob:old") := ⟨rfl, rfl⟩

/-- Claim C2 as amended: `fromRecord(toRecord(object))` reproduces all
geometric properties always, and reproduces the fill — gradient stop
lists and pattern name plus tint included, texture pixels excluded —
when the object is materialized as a new scene object (with the pattern
texture resolving successfully); but when an object with that id already
exists locally and is patched in place, a pattern fill is NOT
re-established: the existing object keeps its previous fill, while flat
and gradient fills do round-trip on that branch too. -/
theorem C2_round_trip_amended (i : String) (obj old : FabricObject)
    (s : SyncState) :
    (assocGet s.fabricObjects i = none →
      (assocGet (roundTripPipeline true i obj s).fabricObjects i).map
          FabricObject.geom = some obj.geom ∧
      (assocGet (roundTripPipeline true i obj s).fabricObjects i).map
          (fun o => recFillOf o.fill) = some (recFillOf obj.fill)) ∧
    (assocGet s.fabricObjects i = some old →
      (assocGet (roundTripPipeline true i obj s).fabricObjects i).map
          FabricObject.geom = some obj.geom ∧
      (isPatternRec (recFillOf obj.fill) = true →
        (assocGet (roundTripPipeline true i obj s).fabricObjects i).map
            FabricObject.fill = some old.fill) ∧
      (isPatternRec (recFillOf obj.fill) = false →
        (assocGet (roundTripPipeline true i obj s).fabricObjects i).map
            (fun o => recFillOf o.fill) = some (recFillOf obj.fill))) := by
  obtain ⟨oid, oty, ol, ot, osx, osy, oa, opa, ofl⟩ := obj
  constructor
  · intro h
    cases ofl with
    | flat c =>
        constructor <;>
          simp [roundTripPipeline, toRecord, decodeRecord, recFillOf,
            applyObjectUpdate, h, assocGet_assocSet, enlivenPatch,
            FabricObject.geom]
    | gradient g =>
        constructor <;>
          simp [roundTripPipeline, toRecord, decodeRecord, recFillOf,
            applyObjectUpdate, h, assocGet_assocSet, enlivenPatch,
            FabricObject.geom]
    | pattern p src =>
        constructor <;>
          simp [roundTripPipeline, toRecord, decodeRecord, recFillOf,
            applyObjectUpdate, h, assocGet_assocSet, enlivenPatch,
            FabricObject.geom]
    | noFill =>
        constructor <;>
          simp [roundTripPipeline, toRecord, decodeRecord, recFillOf,
            applyObjectUpdate, h, assocGet_assocSet, enlivenPatch,
            FabricObject.geom]
    | encoded rf =>
        cases rf <;> constructor <;>
          simp [roundTripPipeline, toRecord, decodeRecord, recFillOf,
            applyObjectUpdate, h, assocGet_assocSet, enlivenPatch,
            FabricObject.geom]
  · intro h
    cases ofl with
    | flat c =>
        refine ⟨?_, ?_, ?_⟩
        · simp [roundTripPipeline, toRecord, decodeRecord, recFillOf,
            applyObjectUpdate, h, assocGet_assocSet, setPatch,
            FabricObject.geom]
        · intro hpat; simp [isPatternRec, recFillOf] at hpat
        · intro hnp
          simp [roundTripPipeline, toRecord, decodeRecord, recFillOf,
            applyObjectUpdate, h, assocGet_assocSet, setPatch]
    | gradient g =>
        refine ⟨?_, ?_, ?_⟩
        · simp [roundTripPipeline, toRecord, decodeRecord, recFillOf,
            applyObjectUpdate, h, assocGet_assocSet, setPatch,
            FabricObject.geom]
        · intro hpat; simp [isPatternRec, recFillOf] at hpat
        · intro hnp
          simp [roundTripPipeline, toRecord, decodeRecord, recFillOf,
            applyObjectUpdate, h, assocGet_assocSet, setPatch]
    | pattern p src =>
        refine ⟨?_, ?_, ?_⟩
        · simp [roundTripPipeline, toRecord, decodeRecord, recFillOf,
            applyObjectUpdate, h, assocGet_assocSet, setPatch,
            FabricObject.geom]
        · intro hpat
          simp [roundTripPipeline, toRecord, decodeRecord, recFillOf,
            applyObjectUpdate, h, assocGet_assocSet, setPatch]
        · intro hnp; simp [isPatternRec, recFillOf] at hnp
    | noFill =>
        refine ⟨?_, ?_, ?_⟩
        · simp [roundTripPipeline, toRecord, decodeRecord, recFillOf,
            applyObjectUpdate, h, assocGet_assocSet, setPatch,
            FabricObject.geom]
        · intro hpat; simp [isPatternRec, recFillOf] at hpat
        · intro hnp
          simp [roundTripPipeline, toRecord, decodeRecord, recFillOf,
            applyObjectUpdate, h, assocGet_assocSet, setPatch]
    | encoded rf =>
        cases rf with
        | flat c =>
            refine ⟨?_, ?_, ?_⟩
            · simp [roundTripPipeline, toRecord, decodeRecord, recFillOf,
                applyObjectUpdate, h, assocGet_assocSet, setPatch,
                FabricObject.geom]
            · intro hpat; simp [isPatternRec, recFillOf] at hpat
            · intro hnp
              simp [roundTripPipeline, toRecord, decodeRecord, recFillOf,
                applyObjectUpdate, h, assocGet_assocSet, setPatch]
        | gradient g =>
            refine ⟨?_, ?_, ?_⟩
            · simp [roundTripPipeline, toRecord, decodeRecord, recFillOf,
                applyObjectUpdate, h, assocGet_assocSet, setPatch,
                FabricObject.geom]
            · intro hpat; simp [isPatternRec, recFillOf] at hpat
            · intro hnp
              simp [roundTripPipeline, toRecord, decodeRecord, recFillOf,
                applyObjectUpdate, h, assocGet_assocSet, setPatch]
        | pattern p =>
            refine ⟨?_, ?_, ?_⟩
            · simp [roundTripPipeline, toRecord, decodeRecord, recFillOf,
                applyObjectUpdate, h, assocGet_assocSet, setPatch,
                FabricObject.geom]
            · intro hpat
              simp [roundTripPipeline, toRecord, decodeRecord, recFillOf,
                applyObjectUpdate, h, assocGet_assocSet, setPatch]
            · intro hnp; simp [isPatternRec, recFillOf] at hnp
        | noFill =>
            refine ⟨?_, ?_, ?_⟩
            · simp [roundTripPipeline, toRecord, decodeRecord, recFillOf,
                applyObjectUpdate, h, assocGet_assocSet, setPatch,
                FabricObject.geom]
            · intro hpat; simp [isPatternRec, recFillOf] at hpat
            · intro hnp
              simp [roundTripPipeline, toRecord, decodeRecord, recFillOf,
                applyObjectUpdate, h, assocGet_assocSet, setPatch]

/-- Witness for the amended C2: the hatch-pattern object materialized on
an empty registry, and the same object patched onto an existing one. -/
theorem C2_round_trip_amended_witness :
    ((assocGet (roundTripPipeline true "p1" objPat baseState).fabricObjects
        "p1").map FabricObject.geom = some objPat.geom ∧
      (assocGet (roundTripPipeline true "p1" objPat baseState).fabricObjects
        "p1").map (fun o => recFillOf o.fill) = some (recFillOf objPat.fill)) ∧
    ((assocGet (roundTripPipeline true "p1" objPat statePat).fabricObjects
        "p1").map FabricObject.geom = some objPat.geom ∧
      (isPatternRec (recFillOf objPat.fill) = true →
        (assocGet (roundTripPipeline true "p1" objPat statePat).fabricObjects
          "p1").map FabricObject.fill = some oldObj.fill) ∧
      (isPatternRec (recFillOf objPat.fill) = false →
        (assocGet (roundTripPipeline true "p1" objPat statePat).fabricObjects
          "p1").map (fun o => recFillOf o.fill) = some (recFillOf objPat.fill))) :=
  ⟨(C2_round_trip_amended "p1" objPat oldObj baseState).1 rfl,
   (C2_round_trip_amended "p1" objPat oldObj statePat).2 rfl⟩

/-- Claim C7: ids are assigned once and never reassigned — `updateYjsObject`
keeps an existing id and generates the fresh uuid only when the object has
none; the record it writes is stored under the object's id and satisfies
record.id = id; and an object materialized from a remote record is
assigned exactly the id under which the record is stored. -/
theorem C7_id_stability (freshId i : String) (obj : FabricObject)
    (s : SyncState) (p : Patch) (f : Option Fill) :
    (obj.id = some i → (updateYjsObject freshId obj s).2.id = some i) ∧
    (∀ omap0, s.objectsMap = some omap0 → s.yDocInit = true →
      obj.id = none → (updateYjsObject freshId obj s).2.id = some freshId) ∧
    ((toRecord i obj).id = i) ∧
    (∀ omap, s.objectsMap = some omap → s.yDocInit = true →
      obj.id = some i → i ∉ s.processingQueue →
      (updateYjsObject freshId obj s).1.objectsMap =
        some (assocSet omap i (toRecord i obj)) ∧
      assocGet (assocSet omap i (toRecord i obj)) i = some (toRecord i obj)) ∧
    (assocGet s.fabricObjects i = none →
      (assocGet (applyObjectUpdate i p f s).fabricObjects i).map
        FabricObject.id = some (some i)) := by
  refine ⟨?_, ?_, rfl, ?_, ?_⟩
  · intro hid
    cases hm : s.objectsMap with
    | none => simp [updateYjsObject, hm, hid]
    | some omap =>
        cases hd : s.yDocInit with
        | false => simp [updateYjsObject, hm, hd, hid]
        | true =>
            simp only [updateYjsObject, hm, hd, hid]
            split <;> simp [hid]
  · intro omap0 hm hd hid
    simp only [updateYjsObject, hm, hd, hid]
    split <;> simp
  · intro omap hm hd hid hq
    refine ⟨?_, assocGet_assocSet _ _ _⟩
    simp [updateYjsObject, hm, hd, hid, hq]
  · intro h
    cases f with
    | none => simp [applyObjectUpdate, h, assocGet_assocSet, enlivenPatch]
    | some fl => simp [applyObjectUpdate, h, assocGet_assocSet, enlivenPatch]

/-- Witness for C7 at concrete objects: an existing id is kept, a missing
id gets the fresh uuid, the written record sits under the object's id with
record.id equal to it, and a materialized object receives the record's
key as its id. -/
theorem C7_id_stability_witness :
    (updateYjsObject "f-1" objA baseState).2.id = some "a" ∧
    (updateYjsObject "f-2" { objA with id := none } baseState).2.id =
      some "f-2" ∧
    ((updateYjsObject "f-3" objA baseState).1.objectsMap =
        some (assocSet [] "a" (toRecord "a" objA)) ∧
      assocGet (assocSet [] "a" (toRecord "a" objA)) "a" =
        some (toRecord "a" objA)) ∧
    (assocGet (applyObjectUpdate "a" patchA none baseState).fabricObjects
        "a").map FabricObject.id = some (some "a") :=
  ⟨(C7_id_stability "f-1" "a" objA baseState patchA none).1 rfl,
   (C7_id_stability "f-2" "a" { objA with id := none } baseState patchA
      none).2.1 [] rfl rfl rfl,
   (C7_id_stability "f-3" "a" objA baseState patchA none).2.2.2.1 [] rfl rfl
      rfl (by decide),
   (C7_id_stability "f-4" "a" objA baseState patchA none).2.2.2.2 rfl⟩
